import Mathlib

/-!
Verification of the Glacier3DViz specification.

The repository ships only the tutorial notebook
(src/tutorials/getting_started.ipynb); the implementation of
glacier3dviz.tools.Glacier3DViz lives outside the shown sources.  All
definitions below are therefore modelled from the spec: the component
descriptions (dataset adapter, scene builder, camera controller,
renderer/player, exporter) and the parameter documentation visible in the
notebook's example calls.
-/

/-- A spatial field on the model grid: one integer value per grid cell,
stored row by row. -/
abbrev Grid := List (List Int)

/-- Modelled from the spec: an arbitrary gridded source dataset.  It holds
named coordinates (such as x, y, time), named time-independent data
variables (such as bedrock) and named time-evolving data variables (such
as the distributed ice thickness, one grid per time step).  The
implementation reading NetCDF input is not under src/. -/
structure Dataset where
  coords : List (String × List Int)
  staticVars : List (String × Grid)
  timeVars : List (String × List Grid)
  deriving DecidableEq, Repr

/-- Look up a named coordinate of the dataset. -/
def Dataset.coord (ds : Dataset) (name : String) : Option (List Int) :=
  (ds.coords.lookup name)

/-- Look up a named time-independent data variable of the dataset. -/
def Dataset.staticVar (ds : Dataset) (name : String) : Option Grid :=
  (ds.staticVars.lookup name)

/-- Look up a named time-evolving data variable of the dataset. -/
def Dataset.timeVar (ds : Dataset) (name : String) : Option (List Grid) :=
  (ds.timeVars.lookup name)

/-- Modelled from the spec: the internal canonical schema the dataset
adapter maps into, holding the x, y and time coordinates, the bedrock
field and the per-time-step ice-thickness field. -/
structure CanonicalData where
  xCoord : List Int
  yCoord : List Int
  timeCoord : List Int
  bedrock : Grid
  iceThickness : List Grid
  deriving DecidableEq, Repr

/-- Modelled from the spec: the dataset adapter.  It maps the named
coordinates (x, y, time) and the named data variables (bedrock, ice
thickness) from an arbitrary gridded source into the internal canonical
schema, by pure renaming: each internal field is exactly the
correspondingly named field of the input dataset, with no validation or
transformation.  The adapter fails only when a requested name is absent.
The implementation is not under src/. -/
def datasetAdapter (ds : Dataset) (x y time topo_bedrock ice_thickness : String) :
    Option CanonicalData :=
  match ds.coord x, ds.coord y, ds.coord time,
      ds.staticVar topo_bedrock, ds.timeVar ice_thickness with
  | some xs, some ys, some ts, some bed, some thk =>
      some ⟨xs, ys, ts, bed, thk⟩
  | _, _, _, _, _ => none

/-- Modelled from the spec: the camera controller state, holding azimuth,
elevation and zoom. -/
structure CameraArgs where
  azimuth : Int
  elevation : Int
  zoom : Int
  deriving DecidableEq, Repr

/-- Modelled from the spec: the 3D visualization object.  It holds the
canonical data produced by the dataset adapter together with the camera
state, which is applied uniformly across frames. -/
structure Glacier3DViz where
  data : CanonicalData
  camera : CameraArgs
  deriving DecidableEq, Repr

/-- Modelled from the spec: the Glacier3DViz constructor.  Coordinate and
variable names are optional; the notebook documents the defaults as
x, y, time, bedrock and simulated_thickness.  The dataset adapter maps
the named fields into the canonical schema. -/
def mkGlacier3DViz (ds : Dataset) (x y time topo_bedrock ice_thickness : Option String)
    (camera : CameraArgs) : Option Glacier3DViz :=
  (datasetAdapter ds (x.getD "x") (y.getD "y") (time.getD "time")
      (topo_bedrock.getD "bedrock") (ice_thickness.getD "simulated_thickness")).map
    (fun cd => ⟨cd, camera⟩)

/-- Elementwise sum of two grids (surface elevation = bedrock + thickness). -/
def gridAdd (a b : Grid) : Grid :=
  List.zipWith (fun ra rb => List.zipWith (· + ·) ra rb) a b

/-- A 3D surface mesh: the glacier surface (bedrock plus ice thickness)
over the bedrock base. -/
structure Mesh where
  surface : Grid
  base : Grid
  deriving DecidableEq, Repr

/-- Modelled from the spec: the scene builder constructs a 3D surface
mesh per time step from the bedrock and ice-thickness fields.  The
implementation is not under src/. -/
def buildMesh (bedrock thickness : Grid) : Mesh :=
  ⟨gridAdd bedrock thickness, bedrock⟩

/-- The mesh of the scene at time step t of a visualization object:
built from its bedrock field and its ice thickness at step t. -/
def sceneMesh (v : Glacier3DViz) (t : Nat) : Mesh :=
  buildMesh v.data.bedrock (v.data.iceThickness.getD t [])

/-- A rendered frame: the mesh of the scene, the camera state used for
the viewpoint, and the time label of the step. -/
structure Frame where
  mesh : Mesh
  camera : CameraArgs
  timeLabel : Int
  deriving DecidableEq, Repr

/-- Modelled from the spec: per-frame rendering.  The frame for time
step t shows the scene mesh at t under the object's camera state. -/
def renderFrame (v : Glacier3DViz) (t : Nat) : Frame :=
  ⟨sceneMesh v t, v.camera, v.data.timeCoord.getD t 0⟩

/-- The sequence of rendered frames, one per entry of the time
coordinate, in the order of the time coordinate. -/
def framesOf (v : Glacier3DViz) : List Frame :=
  (List.range v.data.timeCoord.length).map (renderFrame v)

/-- Content written to a file: either an encoded video made of a frame
sequence at a framerate and quality, or a single frame image. -/
inductive FileContent
  | video (frames : List Frame) (framerate : Nat) (quality : Nat)
  | image (frame : Frame)
  deriving DecidableEq, Repr

/-- A file-system effect of an operation: reading or writing a path. -/
inductive FsEvent
  | read (path : String)
  | write (path : String) (content : FileContent)
  deriving DecidableEq, Repr

/-- The path touched by a file-system event. -/
def FsEvent.path : FsEvent → String
  | .read p => p
  | .write p _ => p

/-- Modelled from the spec: the size of a written file.  The notebook
documents that higher quality leads to a larger video file; the model
makes the video size grow with the quality setting. -/
def fileSize : FileContent → Nat
  | .video frames framerate quality => (frames.length + framerate + 1) * (quality + 1)
  | .image _ => 1

/-- Modelled from the spec: the exporter.  It encodes the sequence of
rendered per-time-step frames, in the order of the time coordinate, into
a single video file at the given framerate and quality, written to the
given filename.  The notebook documents the quality range as 0 to 10;
values outside it are rejected.  The implementation is not under src/. -/
def export_animation (v : Glacier3DViz) (filename : String) (framerate quality : Nat) :
    Option (List FsEvent) :=
  if quality ≤ 10 then
    some [FsEvent.write filename (FileContent.video (framesOf v) framerate quality)]
  else
    none

/-- The size of the video file produced for a visualization object at a
given framerate and quality. -/
def videoSizeAt (v : Glacier3DViz) (framerate quality : Nat) : Nat :=
  fileSize (FileContent.video (framesOf v) framerate quality)

/-- Result of the interactive display: the slider positions (the time
steps of the time coordinate), the frame shown at each slider position,
and the file-system effects of opening the display. -/
structure ShowResult where
  sliderSteps : List Int
  frames : List Frame
  events : List FsEvent
  deriving DecidableEq, Repr

/-- Modelled from the spec: the renderer/player behind viz.show().  It
opens an interactive display whose time slider ranges over exactly the
time steps of the dataset's time coordinate; selecting a slider position
displays the frame rendered for that time step, by the same per-frame
rendering used for batch frame generation during video export.  Opening
the display touches no files.  The implementation is not under src/. -/
def showViz (v : Glacier3DViz) : ShowResult :=
  ⟨v.data.timeCoord, framesOf v, []⟩

/-- Index of the first occurrence of a year in the time coordinate. -/
def indexOfYear (timeCoord : List Int) (year : Int) : Option Nat :=
  match timeCoord with
  | [] => none
  | t :: rest => if t = year then some 0 else (indexOfYear rest year).map (· + 1)

/-- Result of plotting a single year: the file-system effects and the
frame displayed in the notebook, when one is displayed. -/
structure PlotResult where
  events : List FsEvent
  displayed : Option Frame
  deriving DecidableEq, Repr

/-- Modelled from the spec: plot_year.  For a year present in the time
coordinate it renders the single frame of the scene at that time step.
Without a filepath it only displays the frame in the notebook and writes
no file; with a filepath it writes the frame to the image file there, and
show_plot controls only whether the saved plot is additionally displayed.
The implementation is not under src/. -/
def plot_year (v : Glacier3DViz) (year : Int) (filepath : Option String)
    (show_plot : Bool) : Option PlotResult :=
  (indexOfYear v.data.timeCoord year).map fun idx =>
    let frame := renderFrame v idx
    match filepath with
    | none => ⟨[], some frame⟩
    | some p => ⟨[FsEvent.write p (FileContent.image frame)],
        if show_plot then some frame else none⟩

/-- Example input dataset used to exercise the model at concrete values,
shaped like the OGGM dummy data of the tutorial. -/
def exampleDs : Dataset :=
  ⟨[("x", [0, 1]), ("y", [0, 1]), ("time", [2000, 2050])],
   [("bedrock", [[10, 20], [30, 40]])],
   [("simulated_thickness", [[[1, 1], [1, 1]], [[0, 2], [0, 0]]])]⟩

/-- Example camera settings, as in the tutorial. -/
def exampleCamera : CameraArgs := ⟨-135, 20, 1⟩

/-- The visualization object built from the example dataset. -/
def exampleViz : Glacier3DViz :=
  ⟨⟨[0, 1], [0, 1], [2000, 2050], [[10, 20], [30, 40]],
    [[[1, 1], [1, 1]], [[0, 2], [0, 0]]]⟩, exampleCamera⟩

/-- A second visualization object: same bedrock, same ice thickness at
time step 0 as the example object, but different ice thickness at step 1
and a different time coordinate. -/
def exampleVizAlt : Glacier3DViz :=
  ⟨⟨[0, 1], [0, 1], [2000, 2051], [[10, 20], [30, 40]],
    [[[1, 1], [1, 1]], [[5, 5], [5, 5]]]⟩, exampleCamera⟩

theorem indexOfYear_getD (l : List Int) (year : Int) (idx : Nat)
    (h : indexOfYear l year = some idx) : l.getD idx 0 = year := by
  induction l generalizing idx with
  | nil => simp [indexOfYear] at h
  | cons t rest ih =>
    by_cases ht : t = year
    · simp [indexOfYear, ht] at h
      simp [← h, ht]
    · simp [indexOfYear, ht] at h
      obtain ⟨j, hj, hidx⟩ := h
      subst hidx
      simpa using ih j hj

theorem indexOfYear_isSome (l : List Int) (year : Int) (h : year ∈ l) :
    (indexOfYear l year).isSome := by
  induction l with
  | nil => simp at h
  | cons t rest ih =>
    by_cases ht : t = year
    · simp [indexOfYear, ht]
    · rcases List.mem_cons.mp h with h1 | h2
      · exact absurd h1.symm ht
      · simp [indexOfYear, ht, Option.isSome_map]
        simpa using ih h2

/-- Claim C1: for every input gridded dataset and every choice of
coordinate names (x, y, time) and data-variable names (bedrock, ice
thickness), the dataset adapter maps exactly those named coordinates and
data variables into the internal canonical schema: each internal field
equals the correspondingly named field of the input dataset, a pure
renaming with no validation or transformation. -/
theorem adapter_pure_renaming (ds : Dataset) (x y time tb it : String)
    (xs ys ts : List Int) (bed : Grid) (thk : List Grid)
    (hx : ds.coord x = some xs) (hy : ds.coord y = some ys)
    (ht : ds.coord time = some ts) (hb : ds.staticVar tb = some bed)
    (hi : ds.timeVar it = some thk) :
    datasetAdapter ds x y time tb it = some ⟨xs, ys, ts, bed, thk⟩ := by
  simp [datasetAdapter, hx, hy, ht, hb, hi]

theorem adapter_pure_renaming_witness :
    datasetAdapter exampleDs "x" "y" "time" "bedrock" "simulated_thickness" =
      some ⟨[0, 1], [0, 1], [2000, 2050], [[10, 20], [30, 40]],
        [[[1, 1], [1, 1]], [[0, 2], [0, 0]]]⟩ :=
  adapter_pure_renaming exampleDs "x" "y" "time" "bedrock" "simulated_thickness"
    [0, 1] [0, 1] [2000, 2050] [[10, 20], [30, 40]]
    [[[1, 1], [1, 1]], [[0, 2], [0, 0]]] rfl rfl rfl rfl rfl

/-- Claim C2: export_animation encodes precisely the sequence of rendered
per-time-step frames, in the order of the dataset's time coordinate, into
a single video file at the given framerate and quality, writing it to the
given filename. -/
theorem export_encodes_frames (v : Glacier3DViz) (filename : String)
    (framerate quality : Nat) (h : quality ≤ 10) :
    export_animation v filename framerate quality =
      some [FsEvent.write filename
        (FileContent.video
          ((List.range v.data.timeCoord.length).map (renderFrame v))
          framerate quality)] := by
  simp [export_animation, h, framesOf]

theorem export_encodes_frames_witness :
    export_animation exampleViz "dummy_animation.mp4" 20 5 =
      some [FsEvent.write "dummy_animation.mp4"
        (FileContent.video
          ((List.range exampleViz.data.timeCoord.length).map
            (renderFrame exampleViz)) 20 5)] :=
  export_encodes_frames exampleViz "dummy_animation.mp4" 20 5 (by decide)

/-- Claim C3: the 3D surface mesh the scene builder constructs for time
step t is a function only of the bedrock field and the ice-thickness
field at t: any two visualization objects that agree on bedrock and on
ice thickness at t yield the same mesh for t, regardless of the ice
thickness at other time steps or of any other data. -/
theorem sceneMesh_depends_only_on_fields (v1 v2 : Glacier3DViz) (t : Nat)
    (hb : v1.data.bedrock = v2.data.bedrock)
    (ht : v1.data.iceThickness.getD t [] = v2.data.iceThickness.getD t []) :
    sceneMesh v1 t = sceneMesh v2 t := by
  unfold sceneMesh buildMesh
  rw [hb, ht]

theorem sceneMesh_depends_only_on_fields_witness :
    sceneMesh exampleViz 0 = sceneMesh exampleVizAlt 0 :=
  sceneMesh_depends_only_on_fields exampleViz exampleVizAlt 0 rfl rfl

/-- Claim C4: the camera state given at construction is applied to every
rendered frame of every animation or per-year plot: each frame produced
by the per-frame rendering carries the object's fixed camera state, so
the viewpoint does not vary across time steps. -/
theorem camera_uniform_across_frames (v : Glacier3DViz) :
    (∀ t : Nat, (renderFrame v t).camera = v.camera) ∧
    (framesOf v).map Frame.camera =
      List.replicate v.data.timeCoord.length v.camera := by
  refine ⟨fun t => rfl, ?_⟩
  have h : ∀ n : Nat,
      ((List.range n).map (renderFrame v)).map Frame.camera =
        List.replicate n v.camera := by
    intro n
    induction n with
    | zero => rfl
    | succ k ih => simp [List.range_succ, List.replicate_succ', ih, renderFrame]
  exact h v.data.timeCoord.length

/-- Claim C5: for every year y present in the dataset's time coordinate,
plot_year with a filepath renders exactly one frame, the scene at the
time step of y, and writes that single frame to the image file at the
filepath. -/
theorem plot_year_single_frame (v : Glacier3DViz) (year : Int) (p : String)
    (sp : Bool) (hmem : year ∈ v.data.timeCoord) :
    ∃ idx r, indexOfYear v.data.timeCoord year = some idx ∧
      v.data.timeCoord.getD idx 0 = year ∧
      plot_year v year (some p) sp = some r ∧
      r.events = [FsEvent.write p (FileContent.image (renderFrame v idx))] := by
  obtain ⟨idx, hidx⟩ :=
    Option.isSome_iff_exists.mp (indexOfYear_isSome _ _ hmem)
  refine ⟨idx, ⟨[FsEvent.write p (FileContent.image (renderFrame v idx))],
      if sp then some (renderFrame v idx) else none⟩, hidx,
    indexOfYear_getD _ _ _ hidx, ?_, rfl⟩
  simp [plot_year, hidx]

theorem plot_year_single_frame_witness :
    ∃ idx r, indexOfYear exampleViz.data.timeCoord 2050 = some idx ∧
      exampleViz.data.timeCoord.getD idx 0 = 2050 ∧
      plot_year exampleViz 2050 (some "dummy_fig_2050.png") true = some r ∧
      r.events = [FsEvent.write "dummy_fig_2050.png"
        (FileContent.image (renderFrame exampleViz idx))] :=
  plot_year_single_frame exampleViz 2050 "dummy_fig_2050.png" true (by decide)

/-- Claim C6: the operations show, export_animation and plot_year touch
the file system only by writing the user-specified image or video file:
opening the interactive display writes nothing, plotting without a
filepath writes nothing, and every event of an export or of a plot with
a filepath is a write to the given path. -/
theorem operations_touch_only_given_files (v : Glacier3DViz) (fn : String)
    (fr q : Nat) (evs : List FsEvent)
    (h1 : export_animation v fn fr q = some evs)
    (year : Int) (p : String) (sp : Bool)
    (r : PlotResult) (h2 : plot_year v year (some p) sp = some r)
    (r0 : PlotResult) (h3 : plot_year v year none sp = some r0) :
    (showViz v).events = [] ∧
    (∀ e ∈ evs, ∃ c, e = FsEvent.write fn c) ∧
    (∀ e ∈ r.events, ∃ c, e = FsEvent.write p c) ∧
    r0.events = [] := by
  refine ⟨rfl, ?_, ?_, ?_⟩
  · rw [export_animation] at h1
    split at h1
    · cases h1
      intro e he
      simp at he
      exact ⟨_, he⟩
    · cases h1
  · obtain ⟨idx, hidx, hr⟩ := Option.map_eq_some'.mp h2
    intro e he
    rw [← hr] at he
    simp at he
    exact ⟨_, he⟩
  · obtain ⟨idx, hidx, hr⟩ := Option.map_eq_some'.mp h3
    rw [← hr]

theorem operations_touch_only_given_files_witness :
    (showViz exampleViz).events = [] ∧
    (∀ e ∈ [FsEvent.write "dummy_animation.mp4"
        (FileContent.video (framesOf exampleViz) 20 5)],
      ∃ c, e = FsEvent.write "dummy_animation.mp4" c) ∧
    (∀ e ∈ (PlotResult.mk [FsEvent.write "dummy_fig_2050.png"
        (FileContent.image (renderFrame exampleViz 1))]
        (some (renderFrame exampleViz 1))).events,
      ∃ c, e = FsEvent.write "dummy_fig_2050.png" c) ∧
    (PlotResult.mk [] (some (renderFrame exampleViz 1))).events = [] :=
  operations_touch_only_given_files exampleViz "dummy_animation.mp4" 20 5 _
    rfl 2050 "dummy_fig_2050.png" true _ rfl _ rfl

/-- Claim C7: viz.show() opens an interactive display whose time slider
ranges over exactly the time steps of the dataset's time coordinate,
selecting slider position i displays the frame rendered for time step i,
and the same per-frame rendering produces the frames encoded during
video export. -/
theorem show_slider_and_shared_rendering (v : Glacier3DViz) (fn : String)
    (fr q : Nat) (i : Nat) (hq : q ≤ 10)
    (hi : i < (showViz v).frames.length) :
    (showViz v).sliderSteps = v.data.timeCoord ∧
    (showViz v).frames[i]? = some (renderFrame v i) ∧
    export_animation v fn fr q =
      some [FsEvent.write fn (FileContent.video (showViz v).frames fr q)] := by
  refine ⟨rfl, ?_, by simp [export_animation, hq, showViz]⟩
  have hlen : i < v.data.timeCoord.length := by
    simpa [showViz, framesOf] using hi
  show ((List.range v.data.timeCoord.length).map (renderFrame v))[i]? =
    some (renderFrame v i)
  rw [List.getElem?_map, List.getElem?_range hlen]
  rfl

theorem show_slider_and_shared_rendering_witness :
    (showViz exampleViz).sliderSteps = exampleViz.data.timeCoord ∧
    (showViz exampleViz).frames[1]? = some (renderFrame exampleViz 1) ∧
    export_animation exampleViz "dummy_animation.mp4" 20 5 =
      some [FsEvent.write "dummy_animation.mp4"
        (FileContent.video (showViz exampleViz).frames 20 5)] :=
  show_slider_and_shared_rendering exampleViz "dummy_animation.mp4" 20 5 1
    (by decide) (by decide)

/-- Claim C8: export_animation accepts quality values exactly in the
range 0 to 10, and for a fixed dataset, filename and framerate the size
of the produced video file is monotonically non-decreasing in the
quality: higher quality never yields a smaller file. -/
theorem export_quality_range_and_monotone (v : Glacier3DViz) (fn : String)
    (fr q q' : Nat) (hqq : q ≤ q') :
    ((export_animation v fn fr q).isSome ↔ q ≤ 10) ∧
    videoSizeAt v fr q ≤ videoSizeAt v fr q' := by
  constructor
  · rw [export_animation]
    split <;> simp [*]
  · unfold videoSizeAt fileSize
    exact Nat.mul_le_mul_left _ (Nat.succ_le_succ hqq)

theorem export_quality_range_and_monotone_witness :
    ((export_animation exampleViz "dummy_animation.mp4" 20 5).isSome ↔ 5 ≤ 10) ∧
    videoSizeAt exampleViz 20 5 ≤ videoSizeAt exampleViz 20 9 :=
  export_quality_range_and_monotone exampleViz "dummy_animation.mp4" 20 5 9
    (by decide)

/-- Claim C9: constructing Glacier3DViz while omitting the name
arguments is the same as constructing it with x, y, time, bedrock and
simulated_thickness given explicitly: the construction results are
equal, and any two objects so obtained have identical show,
export_animation and plot_year behaviour. -/
theorem defaults_equivalent (ds : Dataset) (camera : CameraArgs) :
    mkGlacier3DViz ds none none none none none camera =
      mkGlacier3DViz ds (some "x") (some "y") (some "time") (some "bedrock")
        (some "simulated_thickness") camera ∧
    (∀ v1 v2 : Glacier3DViz,
      mkGlacier3DViz ds none none none none none camera = some v1 →
      mkGlacier3DViz ds (some "x") (some "y") (some "time") (some "bedrock")
        (some "simulated_thickness") camera = some v2 →
      showViz v1 = showViz v2 ∧
      (∀ fn fr q, export_animation v1 fn fr q = export_animation v2 fn fr q) ∧
      (∀ year fp sp, plot_year v1 year fp sp = plot_year v2 year fp sp)) := by
  have heq : mkGlacier3DViz ds none none none none none camera =
      mkGlacier3DViz ds (some "x") (some "y") (some "time") (some "bedrock")
        (some "simulated_thickness") camera := rfl
  refine ⟨heq, fun v1 v2 h1 h2 => ?_⟩
  have hv : v1 = v2 := by
    rw [heq, h2] at h1
    exact (Option.some_injective _ h1).symm
  subst hv
  exact ⟨rfl, fun fn fr q => rfl, fun year fp sp => rfl⟩

theorem defaults_equivalent_witness :
    mkGlacier3DViz exampleDs none none none none none exampleCamera =
      mkGlacier3DViz exampleDs (some "x") (some "y") (some "time")
        (some "bedrock") (some "simulated_thickness") exampleCamera ∧
    showViz exampleViz = showViz exampleViz ∧
    plot_year exampleViz 2050 none true = plot_year exampleViz 2050 none true :=
  ⟨(defaults_equivalent exampleDs exampleCamera).1,
    ((defaults_equivalent exampleDs exampleCamera).2 exampleViz exampleViz
      rfl rfl).1,
    ((defaults_equivalent exampleDs exampleCamera).2 exampleViz exampleViz
      rfl rfl).2.2 2050 none true⟩

/-- Claim C10: for a year present in the time coordinate, plot_year
without a filepath displays the frame in the notebook only and writes no
file; with a filepath the image is written there, and show_plot controls
only whether the saved plot is additionally displayed, never whether or
where the file is written. -/
theorem plot_year_filepath_and_show_plot (v : Glacier3DViz) (year : Int)
    (p : String) (sp sp' : Bool)
    (r0 : PlotResult) (h0 : plot_year v year none sp = some r0)
    (r1 : PlotResult) (h1 : plot_year v year (some p) sp = some r1) :
    r0.events = [] ∧ r0.displayed.isSome = true ∧
    (∃ frame, r1.events = [FsEvent.write p (FileContent.image frame)]) ∧
    r1.displayed.isSome = sp ∧
    (plot_year v year (some p) sp').map PlotResult.events = some r1.events := by
  obtain ⟨idx0, hidx0, hr0⟩ := Option.map_eq_some'.mp h0
  obtain ⟨idx1, hidx1, hr1⟩ := Option.map_eq_some'.mp h1
  have hidx : idx0 = idx1 := by
    rw [hidx0] at hidx1
    exact Option.some_injective _ hidx1
  subst hidx
  refine ⟨by rw [← hr0], by rw [← hr0]; rfl, ⟨renderFrame v idx0, by rw [← hr1]⟩,
    by rw [← hr1]; cases sp <;> rfl, ?_⟩
  rw [plot_year, hidx0, ← hr1]
  rfl

theorem plot_year_filepath_and_show_plot_witness :
    (PlotResult.mk [] (some (renderFrame exampleViz 1))).events = [] ∧
    (PlotResult.mk [] (some (renderFrame exampleViz 1))).displayed.isSome = true ∧
    (∃ frame, (PlotResult.mk [FsEvent.write "dummy_fig_2050.png"
        (FileContent.image (renderFrame exampleViz 1))] none).events =
      [FsEvent.write "dummy_fig_2050.png" (FileContent.image frame)]) ∧
    (PlotResult.mk [FsEvent.write "dummy_fig_2050.png"
        (FileContent.image (renderFrame exampleViz 1))] none).displayed.isSome =
      false ∧
    (plot_year exampleViz 2050 (some "dummy_fig_2050.png") true).map
        PlotResult.events =
      some (PlotResult.mk [FsEvent.write "dummy_fig_2050.png"
        (FileContent.image (renderFrame exampleViz 1))] none).events :=
  plot_year_filepath_and_show_plot exampleViz 2050 "dummy_fig_2050.png"
    false true _ rfl _ rfl
